import Mathlib

/-!
Shallow embedding of the cloudmarker plugin core:
  * `cloudmarker/events/azlogprofilemissingactivitytypeevent.py`
    (the `AzLogProfileMissingActivityTypeEvent` evaluator), and
  * `cloudmarker/alerts/emailalert.py` (the `EmailAlert` sink).

Python dictionaries carrying record data are modelled as ordered
association lists of `String × Value`; Python exceptions become
`Except`/`Option` error values; the SMTP transport is an oracle
(`Transport`) saying whether each network call succeeds.  The delivery
session is traced by the list of transport calls performed and the
final session state, so that lifecycle properties (which calls happen,
whether `quit` is always reached) are visible in the model.
-/

namespace Cloudmarker

/-- A Python value as it appears inside cloudmarker records: `None`,
booleans, integers, strings, lists and dictionaries. -/
inductive Value where
  | none : Value
  | bool : Bool → Value
  | int : Int → Value
  | str : String → Value
  | list : List Value → Value
  | dict : List (String × Value) → Value

mutual

def decValue : (a b : Value) → Decidable (a = b)
  | .none, .none => isTrue rfl
  | .bool a, .bool b =>
    match decEq a b with
    | isTrue h => isTrue (by rw [h])
    | isFalse _ => isFalse (by intro hh; injection hh; contradiction)
  | .int a, .int b =>
    match decEq a b with
    | isTrue h => isTrue (by rw [h])
    | isFalse _ => isFalse (by intro hh; injection hh; contradiction)
  | .str a, .str b =>
    match decEq a b with
    | isTrue h => isTrue (by rw [h])
    | isFalse _ => isFalse (by intro hh; injection hh; contradiction)
  | .list a, .list b =>
    match decValueList a b with
    | isTrue h => isTrue (by rw [h])
    | isFalse _ => isFalse (by intro hh; injection hh; contradiction)
  | .dict a, .dict b =>
    match decValueDict a b with
    | isTrue h => isTrue (by rw [h])
    | isFalse _ => isFalse (by intro hh; injection hh; contradiction)
  | .none, .bool _ | .none, .int _ | .none, .str _ | .none, .list _ | .none, .dict _
  | .bool _, .none | .bool _, .int _ | .bool _, .str _ | .bool _, .list _ | .bool _, .dict _
  | .int _, .none | .int _, .bool _ | .int _, .str _ | .int _, .list _ | .int _, .dict _
  | .str _, .none | .str _, .bool _ | .str _, .int _ | .str _, .list _ | .str _, .dict _
  | .list _, .none | .list _, .bool _ | .list _, .int _ | .list _, .str _ | .list _, .dict _
  | .dict _, .none | .dict _, .bool _ | .dict _, .int _ | .dict _, .str _ | .dict _, .list _ =>
    isFalse (by intro h; injection h)

def decValueList : (a b : List Value) → Decidable (a = b)
  | [], [] => isTrue rfl
  | [], _ :: _ => isFalse (by intro h; injection h)
  | _ :: _, [] => isFalse (by intro h; injection h)
  | a :: as, b :: bs =>
    match decValue a b, decValueList as bs with
    | isTrue h1, isTrue h2 => isTrue (by rw [h1, h2])
    | isFalse _, _ => isFalse (by intro hh; injection hh; contradiction)
    | _, isFalse _ => isFalse (by intro hh; injection hh; contradiction)

def decValueDict : (a b : List (String × Value)) → Decidable (a = b)
  | [], [] => isTrue rfl
  | [], _ :: _ => isFalse (by intro h; injection h)
  | _ :: _, [] => isFalse (by intro h; injection h)
  | (k1, v1) :: as, (k2, v2) :: bs =>
    match decEq k1 k2, decValue v1 v2, decValueDict as bs with
    | isTrue h1, isTrue h2, isTrue h3 => isTrue (by rw [h1, h2, h3])
    | isFalse _, _, _ => isFalse (by intro hh; injection hh; simp_all)
    | _, isFalse _, _ => isFalse (by intro hh; injection hh; simp_all)
    | _, _, isFalse _ => isFalse (by intro hh; injection hh; simp_all)

end

instance : DecidableEq Value := decValue

/-- A Python dictionary with string keys, as an ordered association
list (Python dictionaries preserve insertion order). -/
abbrev Dict := List (String × Value)

/-- `d.get(k)`: Python `dict.get` with default `None`; `Option.none`
models the Python `None` result for a missing key. -/
def dget (d : Dict) (k : String) : Option Value :=
  (List.find? (fun kv => kv.1 = k) d).map (fun kv => kv.2)

/-- A top-level section (`com`, `ext` or `raw`) of a record: the key
can be absent, present with value `None`, or present with a
dictionary. -/
inductive Section where
  | absent : Section
  | null : Section
  | dict : Dict → Section
deriving DecidableEq

/-- `record.get(key, {})` followed by the `is None` test in `eval`:
`Option.none` means the section was the Python value `None` (the
evaluator returns), otherwise the dictionary to use (`{}` when the key
was absent). -/
def Section.resolve : Section → Option Dict
  | .absent => some []
  | .null => Option.none
  | .dict d => some d

/-- An input record as consumed by
`AzLogProfileMissingActivityTypeEvent.eval`: only the three named
top-level sections are inspected. -/
structure PyRecord where
  com : Section
  ext : Section
  raw : Section
deriving DecidableEq

/-- Python run-time errors relevant to the embedded code. -/
inductive PyErr where
  | typeError : PyErr
  | connectError : PyErr
  | loginError : PyErr
  | otherError : PyErr
deriving DecidableEq

/-- Python membership `x in c`: equality scan for lists, substring
test for strings, key membership for dictionaries; `in` applied to
`None`, a boolean or an integer raises `TypeError`. -/
def pyIn (x : Value) (c : Value) : Except PyErr Bool :=
  match c with
  | .list vs => .ok (decide (x ∈ vs))
  | .str s =>
    match x with
    | .str n => .ok (decide (n.data <:+: s.data))
    | _ => .error .typeError
  | .dict d => .ok (List.any d (fun kv => Value.str kv.1 == x))
  | _ => .error .typeError

/-- Python `str(v)` as used by `'{}'.format(v)` in the event
description strings. -/
def pyFormat : Value → String
  | .none => "None"
  | .bool b => if b then "True" else "False"
  | .int i => toString i
  | .str s => s
  | .list _ => "[...]"
  | .dict _ => "{...}"

/-- Modelled from the spec: `cloudmarker.util.friendly_string` is not
under `src/`; the spec only describes it as rendering the cloud type
as a human-friendly string used inside description text.  Modelled as
capitalisation of the cloud-type string (and `""` for non-strings). -/
def friendly_string : Option Value → String
  | some (.str s) => s.capitalize
  | _ => ""

/-- Binding update on an association-list dictionary: replace the
first binding of `k` in place, or append a new binding at the end,
matching Python `dict.update` insertion-order semantics. -/
def dictSet (d : Dict) (k : String) (v : Value) : Dict :=
  match d with
  | [] => [(k, v)]
  | (k0, v0) :: tl => if k0 = k then (k, v) :: tl else (k0, v0) :: dictSet tl k v

/-- Modelled from the spec: `cloudmarker.util.merge_dicts` is not
under `src/`; per the spec, "a new mapping is produced by merging the
override into a copy" of the first dictionary, the original being left
unmodified.  Keys of the second dictionary override keys of the
first. -/
def merge_dicts (d1 d2 : Dict) : Dict :=
  List.foldl (fun acc kv => dictSet acc kv.1 kv.2) d1 d2

/-- The event discriminator written into `com.record_type` and
`ext.record_type` of every emitted event record. -/
def eventType : String := "log_profile_missing_activity_type_event"

/-- An event record as built by `_get_log_profile_activity_event`:
a Python dictionary with exactly the keys `ext` and `com`. -/
structure EventRecord where
  ext : Dict
  com : Dict
deriving DecidableEq

/-- `_get_log_profile_activity_event(com, ext, missing_activity)`. -/
def getLogProfileActivityEvent (com ext : Dict) (missing_activity : String) : EventRecord :=
  let friendly_cloud_type := friendly_string (dget com "cloud_type")
  let reference := (dget com "reference").getD .none
  let description :=
    friendly_cloud_type ++ " log profile " ++ pyFormat reference ++
      " has is not enabled for " ++ missing_activity ++ " activity."
  let recommendation :=
    "Check " ++ friendly_cloud_type ++ " log profile " ++ pyFormat reference ++
      " and enable for " ++ missing_activity ++ " activity."
  { ext := merge_dicts ext [("record_type", .str eventType)],
    com := [
      ("cloud_type", (dget com "cloud_type").getD .none),
      ("record_type", .str eventType),
      ("reference", reference),
      ("description", .str description),
      ("recommendation", .str recommendation)] }

/-- The loop body of `_evaluate_log_profile_for_activities`: for each
activity in order, test `activity not in raw.get('categories')` and
yield an event when absent; a `TypeError` from the membership test
aborts the generator. -/
def evalActivities (com ext : Dict) (cats : Value) : List String → Except PyErr (List EventRecord)
  | [] => .ok []
  | a :: rest =>
    match pyIn (.str a) cats with
    | .error e => .error e
    | .ok b =>
      match evalActivities com ext cats rest with
      | .error e => .error e
      | .ok evs =>
        .ok (if b then evs else getLogProfileActivityEvent com ext a :: evs)

/-- `_evaluate_log_profile_for_activities(com, ext, raw)`: the fixed
activity tuple is `('Write', 'Delete', 'Action')`; membership is
tested against `raw.get('categories')` (the Python `None` when the key
is missing). -/
def evaluateLogProfileForActivities (com ext raw : Dict) : Except PyErr (List EventRecord) :=
  evalActivities com ext ((dget raw "categories").getD .none) ["Write", "Delete", "Action"]

/-- `AzLogProfileMissingActivityTypeEvent.eval(record)`: the sequence
of yielded event records, or the Python exception raised while the
generator is consumed. -/
def eval (record : PyRecord) : Except PyErr (List EventRecord) :=
  match record.com.resolve with
  | Option.none => .ok []
  | some com =>
    if dget com "cloud_type" ≠ some (.str "azure") then .ok []
    else if dget com "record_type" ≠ some (.str "log_profile") then .ok []
    else
      match record.ext.resolve with
      | Option.none => .ok []
      | some ext =>
        match record.raw.resolve with
        | Option.none => .ok []
        | some raw => evaluateLogProfileForActivities com ext raw

/-! ### The `EmailAlert` sink (`cloudmarker/alerts/emailalert.py`) -/

mutual

/-- Python `repr(v)` as used by `EmailAlert.write` on record values. -/
def pyRepr : Value → String
  | .none => "None"
  | .bool b => if b then "True" else "False"
  | .int i => toString i
  | .str s => "'" ++ s ++ "'"
  | .list vs => "[" ++ String.intercalate ", " (pyReprList vs) ++ "]"
  | .dict d => "\x7b" ++ String.intercalate ", " (pyReprDict d) ++ "\x7d"
termination_by structural v => v

def pyReprList : List Value → List String
  | [] => []
  | v :: vs => pyRepr v :: pyReprList vs
termination_by structural l => l

def pyReprDict : List (String × Value) → List String
  | [] => []
  | (k, v) :: d => ("'" ++ k ++ "': " ++ pyRepr v) :: pyReprDict d
termination_by structural l => l

end

/-- The state of `EmailAlert` objects: the construction-time
configuration plus the mutable accumulation buffer (`stringbuffer`)
and the mutable `body` field (`done` reassigns `self.body`). -/
structure EmailAlert where
  host : String
  port : Nat
  subject : String
  toAddrs : List String
  sender : String
  body : String
  stringbuffer : List String
  use_ssl : Bool
  username : Option String
  password : Option String
deriving DecidableEq

/-- `EmailAlert.__init__`: a Python constructor call can in principle
raise, so construction is typed as fallible; the source constructor
only assigns the arguments to fields (and initialises `stringbuffer`
to the empty list), so every call returns normally. -/
def EmailAlert.init (host : String) (port : Nat) (subject : String)
    (toAddrs : List String) (sender : String) (body : String) (use_ssl : Bool)
    (username : Option String) (password : Option String) :
    Except String EmailAlert :=
  .ok { host, port, subject, toAddrs, sender, body, stringbuffer := [],
        use_ssl, username, password }

/-- `EmailAlert.write(record)`: append `repr(value)` for every value
of the record's top-level mapping, in iteration order, to
`stringbuffer`.  No transport interaction occurs (the function does
not take a `Transport`). -/
def EmailAlert.write (a : EmailAlert) (record : Dict) : EmailAlert :=
  { a with stringbuffer :=
      a.stringbuffer ++ List.map (fun kv => pyRepr kv.2) record }

/-- Oracle for the SMTP transport: whether each network call made by
`done`/`_prepare_smtp_session` succeeds, and how `sendmail` fails when
it does. -/
inductive SendResult where
  | ok : SendResult
  | smtpException : SendResult
  | otherError : SendResult
deriving DecidableEq

structure Transport where
  connect_ssl_ok : Bool
  connect_ok : Bool
  login_ok : Bool
  send_result : SendResult
deriving DecidableEq

/-- States of the delivery session state machine. -/
inductive SessState where
  | unconnected : SessState
  | connected : SessState
  | authenticated : SessState
  | closed : SessState
deriving DecidableEq

/-- Transport calls made during a delivery session, in order. -/
inductive SessEvent where
  | connectSsl : SessEvent
  | connectPlain : SessEvent
  | login : Option String → Option String → SessEvent
  | sendmail : SessEvent
  | quit : SessEvent
deriving DecidableEq

/-- Result of `_prepare_smtp_session`: the transport calls performed,
the outcome (`ok` with the session handed back, or the exception
raised), and the session state reached (also on the failing paths,
where the possibly-open connection is abandoned without `quit`). -/
structure PrepResult where
  events : List SessEvent
  result : Except PyErr Unit
  state : SessState

/-- `EmailAlert._prepare_smtp_session`: with `use_ssl` an `SMTP_SSL`
connection is opened and `login(self.username, self.password)` is
called unconditionally; without `use_ssl` a plain `SMTP` connection is
returned with no login.  `t.login_ok = false` models any exception
raised by the login call (including the client-side failure when the
credentials are `None`). -/
def EmailAlert.prepareSmtpSession (a : EmailAlert) (t : Transport) : PrepResult :=
  if a.use_ssl then
    if t.connect_ssl_ok then
      if t.login_ok then
        { events := [.connectSsl, .login a.username a.password],
          result := .ok (), state := .authenticated }
      else
        { events := [.connectSsl, .login a.username a.password],
          result := .error .loginError, state := .connected }
    else
      { events := [.connectSsl], result := .error .connectError,
        state := .unconnected }
  else
    if t.connect_ok then
      { events := [.connectPlain], result := .ok (), state := .connected }
    else
      { events := [.connectPlain], result := .error .connectError,
        state := .unconnected }

/-- The message assembled by `done` (the `Date` header is wall-clock
environment data and is omitted from the model). -/
structure Message where
  subject : String
  fromAddr : String
  toHeader : String
  body : String
deriving DecidableEq

/-- Result of `EmailAlert.done`: the message assembled before any
transport interaction, the transport calls performed, the exception
propagated out of `done` (if any), the final session state and the
updated sink object. -/
structure DoneResult where
  message : Message
  events : List SessEvent
  raised : Option PyErr
  finalState : SessState
  sink : EmailAlert

/-- `EmailAlert.done()`: build the MIME message (overwriting
`self.body` with the joined buffer when the buffer is nonempty), then
`_prepare_smtp_session()` **outside** any `try` block (its exceptions
propagate), then `try: sendmail ... except smtplib.SMTPException: log
... finally: quit()`. -/
def EmailAlert.done (a : EmailAlert) (t : Transport) : DoneResult :=
  let a' := if a.stringbuffer ≠ [] then
      { a with body := String.join a.stringbuffer } else a
  let message : Message :=
    { subject := a.subject, fromAddr := a.sender,
      toHeader := String.intercalate ", " a.toAddrs, body := a'.body }
  let prep := a.prepareSmtpSession t
  let tail : List SessEvent × Option PyErr × SessState :=
    match prep.result with
    | .error e => ([], some e, prep.state)
    | .ok () =>
      match t.send_result with
      | .ok => ([.sendmail, .quit], Option.none, .closed)
      | .smtpException => ([.sendmail, .quit], Option.none, .closed)
      | .otherError => ([.sendmail, .quit], some .otherError, .closed)
  { message, events := prep.events ++ tail.1, raised := tail.2.1,
    finalState := tail.2.2, sink := a' }

/-! ### Theorems -/

/-- Lookup after a binding update: the updated key reads back the new
value, every other key is unchanged. -/
theorem dget_dictSet (d : Dict) (k : String) (v : Value) (k' : String) :
    dget (dictSet d k v) k' = if k' = k then some v else dget d k' := by
  induction d with
  | nil =>
    by_cases h : k' = k
    · subst h
      simp [dictSet, dget, List.find?]
    · simp [dictSet, dget, List.find?, h, Ne.symm h]
  | cons hd tl ih =>
    obtain ⟨k0, v0⟩ := hd
    by_cases h0 : k0 = k
    · subst h0
      by_cases h' : k0 = k'
      · subst h'
        simp [dictSet, dget, List.find?]
      · simp [dictSet, dget, List.find?, h', Ne.symm h']
    · by_cases h' : k0 = k'
      · have hk : ¬(k' = k) := fun hh => h0 (h'.trans hh)
        simp [dictSet, dget, List.find?, h0, h', hk]
      · simp only [dictSet, if_neg h0]
        simp only [dget, List.find?] at ih ⊢
        simp [h', ih]

/-- C4: if `com.cloud_type` is not `'azure'` or `com.record_type` is
not `'log_profile'`, `eval` yields the empty sequence (and raises
nothing), whatever the `ext` and `raw` sections hold. -/
theorem eval_nonapplicable_empty (r : PyRecord) (com' : Dict)
    (hcom : r.com.resolve = some com')
    (h : dget com' "cloud_type" ≠ some (.str "azure") ∨
         dget com' "record_type" ≠ some (.str "log_profile")) :
    eval r = .ok [] := by
  rcases h with h | h
  · simp [eval, hcom, h]
  · by_cases hc : dget com' "cloud_type" = some (.str "azure")
    · simp [eval, hcom, hc, h]
    · simp [eval, hcom, hc]

/-- C4 witness: a `gcp` record with arbitrary `raw` contents. -/
theorem eval_nonapplicable_empty_witness :
    eval { com := .dict [("cloud_type", .str "gcp"), ("record_type", .str "log_profile")],
           ext := .dict [],
           raw := .dict [("categories", .int 42)] } = .ok [] :=
  eval_nonapplicable_empty _ [("cloud_type", .str "gcp"), ("record_type", .str "log_profile")]
    rfl (by decide)

/-- C3: for an applicable record whose `raw.categories` holds exactly
`['Write']`, `eval` yields exactly the two event records for `Delete`
then `Action` (in the fixed category order — `eval` is a pure function
of the record, so repeated runs produce this same output), each with
`com.record_type` equal to `log_profile_missing_activity_type_event`. -/
theorem eval_write_only_yields_delete_then_action (r : PyRecord) (com' ext' raw' : Dict)
    (hcom : r.com.resolve = some com')
    (hct : dget com' "cloud_type" = some (.str "azure"))
    (hrt : dget com' "record_type" = some (.str "log_profile"))
    (hext : r.ext.resolve = some ext')
    (hraw : r.raw.resolve = some raw')
    (hcats : dget raw' "categories" = some (.list [.str "Write"])) :
    eval r = .ok [getLogProfileActivityEvent com' ext' "Delete",
                  getLogProfileActivityEvent com' ext' "Action"] ∧
    dget (getLogProfileActivityEvent com' ext' "Delete").com "record_type"
      = some (.str eventType) ∧
    dget (getLogProfileActivityEvent com' ext' "Action").com "record_type"
      = some (.str eventType) := by
  refine ⟨?_, ?_, ?_⟩
  · simp [eval, hcom, hct, hrt, hext, hraw, evaluateLogProfileForActivities,
      hcats, evalActivities, pyIn]
  · simp [getLogProfileActivityEvent, dget, List.find?]
  · simp [getLogProfileActivityEvent, dget, List.find?]

/-- C3 witness: a concrete azure `log_profile` record with
`categories = ['Write']`. -/
theorem eval_write_only_yields_delete_then_action_witness :
    eval { com := .dict [("cloud_type", .str "azure"), ("record_type", .str "log_profile"),
                         ("reference", .str "lp1")],
           ext := .dict [("record_type", .str "log_profile"), ("subscription_id", .str "sub1")],
           raw := .dict [("categories", .list [.str "Write"])] }
      = .ok [getLogProfileActivityEvent
               [("cloud_type", .str "azure"), ("record_type", .str "log_profile"),
                ("reference", .str "lp1")]
               [("record_type", .str "log_profile"), ("subscription_id", .str "sub1")]
               "Delete",
             getLogProfileActivityEvent
               [("cloud_type", .str "azure"), ("record_type", .str "log_profile"),
                ("reference", .str "lp1")]
               [("record_type", .str "log_profile"), ("subscription_id", .str "sub1")]
               "Action"] ∧
    dget (getLogProfileActivityEvent
            [("cloud_type", .str "azure"), ("record_type", .str "log_profile"),
             ("reference", .str "lp1")]
            [("record_type", .str "log_profile"), ("subscription_id", .str "sub1")]
            "Delete").com "record_type" = some (.str eventType) ∧
    dget (getLogProfileActivityEvent
            [("cloud_type", .str "azure"), ("record_type", .str "log_profile"),
             ("reference", .str "lp1")]
            [("record_type", .str "log_profile"), ("subscription_id", .str "sub1")]
            "Action").com "record_type" = some (.str eventType) :=
  eval_write_only_yields_delete_then_action _ _ _ _ rfl rfl rfl rfl rfl rfl

/-- C5: the `ext` mapping of every emitted event record reads exactly
like the input record's `ext` with only the `record_type` key
overridden to the event discriminator; the input `ext` itself is a
value that `getLogProfileActivityEvent` never alters (the override is
merged into a fresh list). -/
theorem event_ext_is_input_ext_with_record_type (com' ext' : Dict)
    (activity : String) (k : String) :
    dget (getLogProfileActivityEvent com' ext' activity).ext k
      = if k = "record_type" then some (.str eventType) else dget ext' k := by
  have h : (getLogProfileActivityEvent com' ext' activity).ext
      = dictSet ext' "record_type" (.str eventType) := rfl
  rw [h, dget_dictSet]

/-- C2 (failing input): a record that matches the evaluator's
discriminators but whose `raw` section is empty (so `raw.get('categories')`
is the Python `None`) makes `eval` raise `TypeError` from
`activity not in raw.get('categories')`, instead of yielding the empty
sequence the claim requires. -/
theorem eval_raises_on_missing_categories :
    eval { com := .dict [("cloud_type", .str "azure"), ("record_type", .str "log_profile")],
           ext := .dict [],
           raw := .dict [] } = .error .typeError := rfl

/-- C1 (counterexample): with a plain (non-SSL) sink and a transport
that refuses the connection, `done()` propagates the connection error
(the `smtplib.SMTP(...)` call sits outside the `try` block) and the
session never reaches `Closed`. -/
theorem done_propagates_connect_failure :
    (EmailAlert.done
      { host := "smtp.example.com", port := 25, subject := "s", toAddrs := ["r@x"],
        sender := "f@x", body := "default", stringbuffer := [], use_ssl := false,
        username := Option.none, password := Option.none }
      { connect_ssl_ok := true, connect_ok := false, login_ok := true,
        send_result := .ok }).raised = some .connectError ∧
    (EmailAlert.done
      { host := "smtp.example.com", port := 25, subject := "s", toAddrs := ["r@x"],
        sender := "f@x", body := "default", stringbuffer := [], use_ssl := false,
        username := Option.none, password := Option.none }
      { connect_ssl_ok := true, connect_ok := false, login_ok := true,
        send_result := .ok }).finalState ≠ .closed := by
  exact ⟨rfl, by decide⟩

/-- C1 (amended): only a send failure is isolated — when the
connection (and the login, in SSL mode) succeeds and `sendmail` raises
an SMTP exception, `done()` logs it, returns normally, and the session
reaches `Closed`; connection and login failures instead propagate. -/
theorem done_send_failure_isolated (a : EmailAlert) (t : Transport)
    (hssl : a.use_ssl = true → t.connect_ssl_ok = true ∧ t.login_ok = true)
    (hplain : a.use_ssl = false → t.connect_ok = true)
    (hsend : t.send_result = .smtpException) :
    (a.done t).raised = Option.none ∧ (a.done t).finalState = .closed := by
  cases hu : a.use_ssl with
  | true =>
    obtain ⟨hc, hl⟩ := hssl hu
    simp [EmailAlert.done, EmailAlert.prepareSmtpSession, hu, hc, hl, hsend]
  | false =>
    have hc := hplain hu
    simp [EmailAlert.done, EmailAlert.prepareSmtpSession, hu, hc, hsend]

/-- C1 witness: a plain sink, a transport whose connection succeeds
and whose `sendmail` raises an SMTP exception. -/
theorem done_send_failure_isolated_witness :
    (EmailAlert.done
      { host := "smtp.example.com", port := 25, subject := "s", toAddrs := ["r@x"],
        sender := "f@x", body := "default", stringbuffer := [], use_ssl := false,
        username := Option.none, password := Option.none }
      { connect_ssl_ok := true, connect_ok := true, login_ok := true,
        send_result := .smtpException }).raised = Option.none ∧
    (EmailAlert.done
      { host := "smtp.example.com", port := 25, subject := "s", toAddrs := ["r@x"],
        sender := "f@x", body := "default", stringbuffer := [], use_ssl := false,
        username := Option.none, password := Option.none }
      { connect_ssl_ok := true, connect_ok := true, login_ok := true,
        send_result := .smtpException }).finalState = .closed :=
  done_send_failure_isolated _ _ (by decide) (by decide) rfl

/-- C6 (counterexample): a sink constructed with `use_ssl = true` and
no credentials still performs the login step — `login(None, None)` is
called — so the login transition is not guarded by the presence of
credentials. -/
theorem login_performed_without_credentials :
    SessEvent.login Option.none Option.none ∈
      (EmailAlert.done
        { host := "smtp.gmail.com", port := 465, subject := "s", toAddrs := ["r@x"],
          sender := "f@x", body := "default", stringbuffer := [], use_ssl := true,
          username := Option.none, password := Option.none }
        { connect_ssl_ok := true, connect_ok := true, login_ok := true,
          send_result := .ok }).events := by decide

/-- C6 (amended): the `Connected → Authenticated` login step is
performed exactly when the sink was configured with `use_ssl` and the
SSL connection succeeded — independently of whether credentials were
supplied at construction. -/
theorem login_iff_use_ssl (a : EmailAlert) (t : Transport) :
    (∃ u p, SessEvent.login u p ∈ (a.done t).events) ↔
      (a.use_ssl = true ∧ t.connect_ssl_ok = true) := by
  cases hu : a.use_ssl <;> cases hc : t.connect_ssl_ok <;>
    cases hk : t.connect_ok <;> cases hl : t.login_ok <;>
    cases hs : t.send_result <;>
    simp [EmailAlert.done, EmailAlert.prepareSmtpSession, hu, hc, hk, hl, hs]

/-- C7 (counterexample): constructing a sink configured to
authenticate (`use_ssl = true`) with no credentials succeeds — the
constructor performs no validation, so the misconfiguration is not
caught at construction time. -/
theorem init_accepts_missing_credentials :
    (EmailAlert.init "smtp.gmail.com" 465 "subject" ["r@x"] "f@x" "default" true
        Option.none Option.none).isOk = true := rfl

/-- C7 (amended): construction never fails — `__init__` only stores
its arguments — so a sink configured to authenticate without
credentials is built normally and the failure surfaces only at
delivery time, when `done()` reaches the login step. -/
theorem init_never_fails (host : String) (port : Nat) (subject : String)
    (toAddrs : List String) (sender : String) (body : String) (use_ssl : Bool)
    (username : Option String) (password : Option String) :
    (EmailAlert.init host port subject toAddrs sender body use_ssl
        username password).isOk = true := rfl

/-- C8: `done()` on a sink whose buffer is empty (zero `write` calls)
produces a message whose body is exactly the configured default
body. -/
theorem done_empty_buffer_default_body (a : EmailAlert) (t : Transport)
    (h : a.stringbuffer = []) :
    (a.done t).message.body = a.body := by
  simp [EmailAlert.done, h]

/-- C8 witness. -/
theorem done_empty_buffer_default_body_witness :
    (EmailAlert.done
      { host := "h", port := 25, subject := "s", toAddrs := ["r@x"],
        sender := "f@x", body := "the default body", stringbuffer := [],
        use_ssl := false, username := Option.none, password := Option.none }
      { connect_ssl_ok := true, connect_ok := true, login_ok := true,
        send_result := .ok }).message.body = "the default body" :=
  done_empty_buffer_default_body _ _ rfl

/-- C9: `write` appends `repr` of every value of the record, in the
mapping's iteration order, to the buffer (and touches no transport —
it takes none); writing `{k1: 1}` then `{k2: 2}` into a fresh sink and
calling `done()` gives a body equal to the rendering of `1` followed
by the rendering of `2`, whatever the key names. -/
theorem write_accumulation_order (a : EmailAlert) (t : Transport)
    (record : Dict) (k1 k2 : String) (h : a.stringbuffer = []) :
    (a.write record).stringbuffer
        = a.stringbuffer ++ List.map (fun kv => pyRepr kv.2) record ∧
    (((a.write [(k1, .int 1)]).write [(k2, .int 2)]).done t).message.body
        = pyRepr (.int 1) ++ pyRepr (.int 2) := by
  constructor
  · rfl
  · simp [EmailAlert.write, EmailAlert.done, h, String.join]

/-- C9 witness. -/
theorem write_accumulation_order_witness :
    ((EmailAlert.write
      { host := "h", port := 25, subject := "s", toAddrs := ["r@x"],
        sender := "f@x", body := "default", stringbuffer := [],
        use_ssl := false, username := Option.none, password := Option.none }
      [("a", .int 1)]).stringbuffer
        = [] ++ List.map (fun kv => pyRepr kv.2) [("a", Value.int 1)]) ∧
    (((EmailAlert.write
        (EmailAlert.write
          { host := "h", port := 25, subject := "s", toAddrs := ["r@x"],
            sender := "f@x", body := "default", stringbuffer := [],
            use_ssl := false, username := Option.none, password := Option.none }
          [("a", .int 1)])
        [("b", .int 2)]).done
      { connect_ssl_ok := true, connect_ok := true, login_ok := true,
        send_result := .ok }).message.body
        = pyRepr (.int 1) ++ pyRepr (.int 2)) :=
  write_accumulation_order _ _ [("a", .int 1)] "a" "b" rfl

/-- C10: when at least one fragment was accumulated, `done()`
overwrites the sink's stored `body` field with the concatenation of
the fragments; a later `done()` on that sink with an emptied buffer
therefore sends the previous concatenation, not the originally
configured default. -/
theorem done_overwrites_body (a : EmailAlert) (t t2 : Transport)
    (h : a.stringbuffer ≠ []) :
    ((a.done t).sink).body = String.join a.stringbuffer ∧
    (EmailAlert.done { (a.done t).sink with stringbuffer := [] } t2).message.body
      = String.join a.stringbuffer := by
  constructor
  · simp [EmailAlert.done, h]
  · simp [EmailAlert.done, h]

/-- C10 witness: after a run that accumulated `"x"` and `"y"`, the
stored body is `"xy"` and a later empty-buffer `done()` sends `"xy"`
instead of the configured `"default"`. -/
theorem done_overwrites_body_witness :
    ((EmailAlert.done
      { host := "h", port := 25, subject := "s", toAddrs := ["r@x"],
        sender := "f@x", body := "default", stringbuffer := ["x", "y"],
        use_ssl := false, username := Option.none, password := Option.none }
      { connect_ssl_ok := true, connect_ok := true, login_ok := true,
        send_result := .ok }).sink).body = String.join ["x", "y"] ∧
    (EmailAlert.done
      { (EmailAlert.done
          { host := "h", port := 25, subject := "s", toAddrs := ["r@x"],
            sender := "f@x", body := "default", stringbuffer := ["x", "y"],
            use_ssl := false, username := Option.none, password := Option.none }
          { connect_ssl_ok := true, connect_ok := true, login_ok := true,
            send_result := .ok }).sink with stringbuffer := [] }
      { connect_ssl_ok := true, connect_ok := true, login_ok := true,
        send_result := .ok }).message.body = String.join ["x", "y"] :=
  done_overwrites_body _ _ _ (by decide)

end Cloudmarker
